import Mathlib

/-!
Shallow embedding of the GOVA AI-visibility analysis pipeline
(app/services/{robots,scoring,content,structure,schema_detector,recommendations}.py
and app/services/analyzer.py), together with theorems checking the
natural-language specification against it.

Conventions of the embedding:
* Python dicts with a fixed key set produced by the pipeline are Lean
  structures; a dict key that is absent on some code path is an `Option`
  field (`none` = key absent).  Reads done in Python with `d.get(k, default)`
  on an optional field are `Option.getD`.
* Python dicts used as growable mappings (robots rules, crawler statuses)
  are association lists with insertion-order semantics: `dictInsert`
  updates an existing key in place or appends a new one, exactly like a
  CPython dict assignment.
* Strings are Lean `String`s; the inputs exercised here are ASCII, where
  `String.toLower`, `String.trim`, `Char.isWhitespace` agree with the
  Python operations used by the source.
-/

/-- Character-list test: `pat` occurs as a contiguous run starting at the head. -/
def listStartsWithRun : List Char → List Char → Bool
  | _, [] => true
  | [], _ :: _ => false
  | a :: as, b :: bs => a == b && listStartsWithRun as bs

/-- Character-list test: `pat` occurs contiguously somewhere in `l`. -/
def listHasRun (pat : List Char) : List Char → Bool
  | [] => pat.isEmpty
  | c :: cs => listStartsWithRun (c :: cs) pat || listHasRun pat cs

/-- Python `pat in s` substring membership test. -/
def pyIn (pat s : String) : Bool := listHasRun pat.toList s.toList

/-- Lowercasing of an ASCII letter (Python `str.lower` on the ASCII inputs
used here). -/
def charLower (c : Char) : Char :=
  if c.toNat ≥ 65 && c.toNat ≤ 90 then Char.ofNat (c.toNat + 32) else c

/-- Python `s.lower()`. -/
def pyLower (s : String) : String := String.mk (s.toList.map charLower)

/-- Python `s.strip()`: leading and trailing whitespace removed. -/
def pyStrip (s : String) : String :=
  String.mk ((((s.toList.dropWhile Char.isWhitespace).reverse).dropWhile Char.isWhitespace).reverse)

/-- Python `not s` emptiness test on strings. -/
def pyIsEmpty (s : String) : Bool := s.toList.isEmpty

/-- Python `s.startswith(pre)`. -/
def pyStartsWith (s pre : String) : Bool := listStartsWithRun s.toList pre.toList

/-- Python slicing `s[:n]`. -/
def pyTake (s : String) (n : Nat) : String := String.mk (s.toList.take n)

/-- Split a character list on a separator character, keeping empty segments
(Python `s.split(sep)`). -/
def splitChar (sep : Char) : List Char → List (List Char)
  | [] => [[]]
  | c :: cs =>
    match splitChar sep cs with
    | [] => [[]]
    | g :: gs => if c == sep then [] :: g :: gs else (c :: g) :: gs

/-- Split a character list at every character satisfying `p`, keeping empty
segments. -/
def splitPred (p : Char → Bool) : List Char → List (List Char)
  | [] => [[]]
  | c :: cs =>
    match splitPred p cs with
    | [] => [[]]
    | g :: gs => if p c then [] :: g :: gs else (c :: g) :: gs

/-- Python `s.split(sep)` on strings. -/
def pySplitOnChar (sep : Char) (s : String) : List String :=
  (splitChar sep s.toList).map String.mk

/-- Python `s.split(':', 1)[1]`: everything after the first colon.
Only used where a colon is known to be present (after a startswith check). -/
def pyAfterColon (s : String) : String :=
  String.intercalate ":" ((pySplitOnChar ':' s).tail)

/-- Python `text.split()`: split on whitespace, dropping empty tokens. -/
def pySplitWs (s : String) : List String :=
  ((splitPred Char.isWhitespace s.toList).map String.mk).filter (fun w => !pyIsEmpty w)

/-- CPython dict assignment `m[k] = v` on an insertion-ordered mapping:
update the existing entry in place, else append the new key at the end. -/
def dictInsert {α : Type} : List (String × α) → String → α → List (String × α)
  | [], k, v => [(k, v)]
  | p :: ps, k, v => if p.1 == k then (k, v) :: ps else p :: dictInsert ps k v

/-- Python `k in m` for a dict modelled as an association list. -/
def alContains {α : Type} (m : List (String × α)) (k : String) : Bool :=
  m.any (fun p => p.1 == k)

/-- Python `m[k]` lookup (as an `Option`). -/
def alGet? {α : Type} (m : List (String × α)) (k : String) : Option α :=
  (m.find? (fun p => p.1 == k)).map (·.2)

/-- Python dict comprehension `{c: v for c in cs}`. -/
def pyDictConst (cs : List String) (v : String) : List (String × String) :=
  cs.foldl (fun m c => dictInsert m c v) []

/-! ## app/services/robots.py -/

/-- A robots.txt rule: `(rule_type, path)` with rule_type "disallow" or "allow". -/
abbrev RobotsRule := String × String

/-- The `rules` dict of `parse_robots`: user-agent name ↦ its rule list. -/
abbrev RulesMap := List (String × List RobotsRule)

/-- `if agent not in rules: rules[agent] = []` (robots.py:66,71,76). -/
def rulesEnsure : RulesMap → String → RulesMap
  | [], k => [(k, [])]
  | p :: ps, k => if p.1 == k then p :: ps else p :: rulesEnsure ps k

/-- `rules[agent].append(rule)` (robots.py:73,79); key known present. -/
def rulesAppendRule : RulesMap → String → RobotsRule → RulesMap
  | [], _, _ => []
  | p :: ps, k, r => if p.1 == k then (p.1, p.2 ++ [r]) :: ps else p :: rulesAppendRule ps k r

/-- One iteration of the line loop of `parse_robots` (robots.py:56-79).
State is `(current_agents, rules)`. -/
def robotsLineStep (st : List String × RulesMap) (rawLine : String) : List String × RulesMap :=
  let line := pyStrip rawLine
  if pyIsEmpty line || pyStartsWith line "#" then st
  else if pyStartsWith line "user-agent:" then
    let agent := pyStrip (pyAfterColon line)
    ([agent], rulesEnsure st.2 agent)
  else if pyStartsWith line "disallow:" && !st.1.isEmpty then
    let path := pyStrip (pyAfterColon line)
    (st.1, st.1.foldl (fun rs agent => rulesAppendRule (rulesEnsure rs agent) agent ("disallow", path)) st.2)
  else if pyStartsWith line "allow:" && !st.1.isEmpty then
    let path := pyStrip (pyAfterColon line)
    (st.1, st.1.foldl (fun rs agent => rulesAppendRule (rulesEnsure rs agent) agent ("allow", path)) st.2)
  else st

/-- The per-agent rule table built by `parse_robots` from the lowercased,
newline-split document (robots.py:50-79). -/
def robots_rules (content : String) : RulesMap :=
  ((pySplitOnChar '\n' (pyLower content)).foldl robotsLineStep ([], [])).2

/-- A disallow directive whose path is exactly "/" or "" (robots.py:92,101). -/
def rootDisallow (r : RobotsRule) : Bool :=
  r.1 == "disallow" && (r.2 == "/" || r.2 == "")

/-- The body of the per-crawler loop of `parse_robots` (robots.py:85-108):
own rules first, else wildcard rules, else allowed; the for/else with break
resolves to "blocked" exactly when some root disallow is present. -/
def resolve_crawler (rules : RulesMap) (crawler : String) : String :=
  let crawler_lower := pyLower crawler
  if alContains rules crawler_lower then
    if ((alGet? rules crawler_lower).getD []).any rootDisallow then "blocked" else "allowed"
  else if alContains rules "*" then
    if ((alGet? rules "*").getD []).any rootDisallow then "blocked" else "allowed"
  else "allowed"

/-- Result dict of the robots analysis (§3 RobotsResult).  `blocked_count`
and `error` are keys that some code paths omit, hence `Option`. -/
structure RobotsResult where
  exists_ : Bool
  allows_all : Bool
  blocked_count : Option Nat
  error : Option String
  crawlers : List (String × String)
deriving DecidableEq, Repr

/-- Body of the per-crawler loop of `parse_robots` (robots.py:85-108):
record the crawler's status and bump the blocked count when blocked. -/
def robotsStatusStep (rules : RulesMap) (acc : List (String × String) × Nat) (c : String) :
    List (String × String) × Nat :=
  let s := resolve_crawler rules c
  (dictInsert acc.1 c s, acc.2 + (if s == "blocked" then 1 else 0))

/-- Body of the fill-in loop of `parse_robots` (robots.py:111-113): mark any
still-missing crawler as allowed. -/
def robotsFillStep (m : List (String × String)) (c : String) : List (String × String) :=
  if alContains m c then m else dictInsert m c "allowed"

/-- `parse_robots(content, ai_crawlers)` (robots.py:46-120). -/
def parse_robots (content : String) (ai_crawlers : List String) : RobotsResult :=
  let rules := robots_rules content
  let res := ai_crawlers.foldl (robotsStatusStep rules) ([], 0)
  let crawlers_status := ai_crawlers.foldl robotsFillStep res.1
  { exists_ := true
    allows_all := res.2 == 0
    blocked_count := some res.2
    error := none
    crawlers := crawlers_status }

/-- Outcome of the network fetch inside `analyze_robots` (robots.py:14-43):
an HTTP response with a status code and body, or a raised exception. -/
inductive RobotsFetch where
  | response (code : Nat) (body : String)
  | exn (msg : String)
deriving DecidableEq

/-- `analyze_robots` (robots.py:10-43) with the fetch outcome made explicit.
The 404 and non-200 branches and the exception handler return dicts that
contain no "blocked_count" key at all (`none` here). -/
def analyze_robots (fetch : RobotsFetch) (ai_crawlers : List String) : RobotsResult :=
  match fetch with
  | .response code body =>
    if code == 404 then
      { exists_ := false, allows_all := true, blocked_count := none, error := none
        crawlers := pyDictConst ai_crawlers "allowed" }
    else if code != 200 then
      { exists_ := false, allows_all := true, blocked_count := none
        error := some s!"Could not fetch robots.txt (status {code})"
        crawlers := pyDictConst ai_crawlers "unknown" }
    else parse_robots body ai_crawlers
  | .exn msg =>
      { exists_ := false, allows_all := true, blocked_count := none
        error := some msg
        crawlers := pyDictConst ai_crawlers "unknown" }

/-! ## app/services/scoring.py -/

/-- ContentResult (§3), as produced by `extract_content`. -/
structure ContentData where
  text : String
  word_count : Nat
  is_spa_empty : Bool
  has_content : Bool
deriving DecidableEq, Repr

/-- StructureResult (§3), as produced by `analyze_structure`. -/
structure StructureData where
  has_title : Bool
  title : String
  title_length : Nat
  has_description : Bool
  description : String
  description_length : Nat
  h1_count : Nat
  h1_texts : List String
  h2_count : Nat
  h3_count : Nat
  has_main : Bool
  has_article : Bool
  has_section : Bool
  has_nav : Bool
  has_header : Bool
  has_footer : Bool
  semantic_count : Nat
  total_images : Nat
  images_with_alt : Nat
  images_alt_percentage : Nat
  total_links : Nat
  has_noai : Bool
  has_noimageai : Bool
deriving DecidableEq, Repr

/-- The fields of SchemaResult consumed by scoring and recommendations
(`has_schema` and the display `types` list). -/
structure SchemaData where
  has_schema : Bool
  types : List String
deriving DecidableEq, Repr

/-- One category entry of the score breakdown. -/
structure CategoryScore where
  score : Nat
  max : Nat
  status : String
  detail : String
deriving DecidableEq, Repr

/-- The breakdown dict with its nine fixed keys, in insertion order
(scoring.py:76-234).  `structure` is a Lean keyword, hence `structure_`. -/
structure Breakdown where
  content : CategoryScore
  title : CategoryScore
  description : CategoryScore
  h1 : CategoryScore
  structure_ : CategoryScore
  no_spa : CategoryScore
  robots : CategoryScore
  alt_text : CategoryScore
  schema : CategoryScore
deriving DecidableEq, Repr

/-- Return value of `calculate_score` (scoring.py:239-243). -/
structure ScoreResult where
  total : Nat
  max : Nat
  breakdown : Breakdown
deriving DecidableEq, Repr

/-- `calculate_score` (scoring.py:49-243).  Each category computes its
`(score, status)` pair by the source's if/elif chain; details mirror the
f-strings.  Note the source's signature takes exactly these four
parameters and nothing else. -/
def calculate_score (content_data : ContentData) (structure_data : StructureData)
    (robots_data : RobotsResult) (schema_data : SchemaData) : ScoreResult :=
  let word_count := content_data.word_count
  let contentPair : Nat × String :=
    if word_count ≥ 500 then (25, "excellent")
    else if word_count ≥ 200 then (15, "good")
    else if word_count ≥ 50 then (8, "warning")
    else (2, "critical")
  let titlePair : Nat × String :=
    if structure_data.has_title && structure_data.title_length ≥ 10 then (10, "excellent")
    else if structure_data.has_title then (5, "warning")
    else (0, "critical")
  let desc_length := structure_data.description_length
  let descPair : Nat × String :=
    if 120 ≤ desc_length && desc_length ≤ 160 then (10, "excellent")
    else if structure_data.has_description then (5, "warning")
    else (0, "critical")
  let h1_count := structure_data.h1_count
  let h1Pair : Nat × String :=
    if h1_count == 1 then (10, "excellent")
    else if h1_count > 1 then (5, "warning")
    else (0, "critical")
  let semantic_count := structure_data.semantic_count
  let structPair : Nat × String :=
    if semantic_count ≥ 4 then (10, "excellent")
    else if semantic_count ≥ 2 then (6, "good")
    else if semantic_count ≥ 1 then (3, "warning")
    else (0, "critical")
  let spaPair : Nat × String :=
    if !content_data.is_spa_empty && content_data.has_content then (15, "excellent")
    else if content_data.is_spa_empty then (0, "critical")
    else (8, "warning")
  let robotsPair : Nat × String :=
    if robots_data.allows_all then (10, "excellent")
    else
      let blocked_count := robots_data.blocked_count.getD 0
      if blocked_count > 4 then (0, "critical")
      else if blocked_count > 0 then (5, "warning")
      else (10, "excellent")
  let alt_percentage := structure_data.images_alt_percentage
  let altPair : Nat × String :=
    if alt_percentage ≥ 80 then (5, "excellent")
    else if alt_percentage ≥ 50 then (3, "warning")
    else (0, "critical")
  let schemaPair : Nat × String :=
    if schema_data.has_schema then (5, "excellent") else (0, "warning")
  let bc := robots_data.blocked_count.getD 0
  let typesJoined := String.intercalate ", " schema_data.types
  let breakdown : Breakdown :=
    { content := { score := contentPair.1, max := 25, status := contentPair.2
                   detail := s!"{word_count} palabras detectadas" }
      title := { score := titlePair.1, max := 10, status := titlePair.2
                 detail := pyTake structure_data.title 60 }
      description := { score := descPair.1, max := 10, status := descPair.2
                       detail := if desc_length > 0 then s!"{desc_length} caracteres" else "No detectado" }
      h1 := { score := h1Pair.1, max := 10, status := h1Pair.2
              detail := s!"{h1_count} H1 detectado(s)" }
      structure_ := { score := structPair.1, max := 10, status := structPair.2
                      detail := s!"{semantic_count} elementos semánticos" }
      no_spa := { score := spaPair.1, max := 15, status := spaPair.2
                  detail := if content_data.is_spa_empty then "SPA vacía detectada" else "Contenido visible sin JS" }
      robots := { score := robotsPair.1, max := 10, status := robotsPair.2
                  detail := s!"{bc} crawlers bloqueados" }
      alt_text := { score := altPair.1, max := 5, status := altPair.2
                    detail := s!"{alt_percentage}% de imágenes con alt" }
      schema := { score := schemaPair.1, max := 5, status := schemaPair.2
                  detail := if !schema_data.types.isEmpty then pyTake typesJoined 50 else "No detectado" } }
  let total := breakdown.content.score + breakdown.title.score + breakdown.description.score
    + breakdown.h1.score + breakdown.structure_.score + breakdown.no_spa.score
    + breakdown.robots.score + breakdown.alt_text.score + breakdown.schema.score
  { total := total, max := 100, breakdown := breakdown }

/-! Spec-side category step functions, written from the table of §4.5 of the
spec ("| category | max | rule |" rows read as ordered decision lists).
They exist to be compared with `calculate_score`. -/

/-- Spec row: word_count ≥500→25 excellent; ≥200→15 good; ≥50→8 warning; else 2 critical. -/
def spec_content_rule (word_count : Nat) : Nat × String :=
  if word_count ≥ 500 then (25, "excellent")
  else if word_count ≥ 200 then (15, "good")
  else if word_count ≥ 50 then (8, "warning")
  else (2, "critical")

/-- Spec row: has title & length≥10→10 excellent; has title only→5 warning; none→0 critical. -/
def spec_title_rule (has_title : Bool) (title_length : Nat) : Nat × String :=
  if has_title && title_length ≥ 10 then (10, "excellent")
  else if has_title then (5, "warning")
  else (0, "critical")

/-- Spec row: length in [120,160]→10 excellent; present but outside range→5 warning; absent→0 critical. -/
def spec_description_rule (has_description : Bool) (description_length : Nat) : Nat × String :=
  if 120 ≤ description_length && description_length ≤ 160 then (10, "excellent")
  else if has_description then (5, "warning")
  else (0, "critical")

/-- Spec row: exactly 1→10 excellent; >1→5 warning; 0→0 critical. -/
def spec_h1_rule (h1_count : Nat) : Nat × String :=
  if h1_count == 1 then (10, "excellent")
  else if h1_count > 1 then (5, "warning")
  else (0, "critical")

/-- Spec row: semantic_count≥4→10; ≥2→6 good; ≥1→3 warning; 0→0 critical
(the table leaves the ≥4 label implicit; the engine reports "excellent"). -/
def spec_structure_rule (semantic_count : Nat) : Nat × String :=
  if semantic_count ≥ 4 then (10, "excellent")
  else if semantic_count ≥ 2 then (6, "good")
  else if semantic_count ≥ 1 then (3, "warning")
  else (0, "critical")

/-- Spec row: not spa-empty & has_content→15 excellent; spa-empty→0 critical; else 8 warning. -/
def spec_no_spa_rule (is_spa_empty has_content : Bool) : Nat × String :=
  if !is_spa_empty && has_content then (15, "excellent")
  else if is_spa_empty then (0, "critical")
  else (8, "warning")

/-- Spec row: allows_all→10 excellent; else blocked_count>4→0 critical, >0→5 warning, else 10. -/
def spec_robots_rule (allows_all : Bool) (blocked_count : Nat) : Nat × String :=
  if allows_all then (10, "excellent")
  else if blocked_count > 4 then (0, "critical")
  else if blocked_count > 0 then (5, "warning")
  else (10, "excellent")

/-- Spec row: alt_percentage≥80→5 excellent; ≥50→3 warning; else 0 critical. -/
def spec_alt_text_rule (alt_percentage : Nat) : Nat × String :=
  if alt_percentage ≥ 80 then (5, "excellent")
  else if alt_percentage ≥ 50 then (3, "warning")
  else (0, "critical")

/-- Spec row: has_schema→5 excellent; else 0 warning. -/
def spec_schema_rule (has_schema : Bool) : Nat × String :=
  if has_schema then (5, "excellent") else (0, "warning")

/-! ## app/services/recommendations.py -/

/-- One recommendation entry. -/
structure Recommendation where
  priority : String
  title : String
  description : String
  impact : String
deriving DecidableEq, Repr

/-- `priority_order.get(p, 5)` (recommendations.py:142-143). -/
def priority_order (p : String) : Nat :=
  if p == "critical" then 0
  else if p == "high" then 1
  else if p == "medium" then 2
  else if p == "low" then 3
  else if p == "info" then 4
  else 5

/-- The recommendation list as generated, before the final sort
(recommendations.py:19-139): each condition appends at most one entry,
in the source's fixed order. -/
def generate_recommendations_unsorted (content_data : ContentData)
    (structure_data : StructureData) (robots_data : RobotsResult)
    (schema_data : SchemaData) (scores : ScoreResult) (is_ai_blocked : Bool) :
    List Recommendation :=
  let breakdown := scores.breakdown
  let word_count := content_data.word_count
  let desc_length := structure_data.description_length
  let h1_count := structure_data.h1_count
  let alt_percentage := structure_data.images_alt_percentage
  let missing := structure_data.total_images - structure_data.images_with_alt
  let blocked := (robots_data.crawlers.filter (fun p => p.2 == "blocked")).map (·.1)
  let blockedJoined := String.intercalate ", " blocked
  (if is_ai_blocked then
    [{ priority := "critical"
       title := "Tu servidor bloquea activamente a las IAs"
       description := "Hemos detectado que tu WAF (como Cloudflare) bloquea el User-Agent de GPTBot. Esto hace que seas invisible para ChatGPT."
       impact := "Acceso totalmente denegado para la mayoría de modelos de IA." }] else [])
  ++ (if content_data.is_spa_empty then
    [{ priority := "critical"
       title := "Tu web usa Client-Side Rendering (SPA vacía)"
       description := "Los crawlers de IA no pueden ejecutar JavaScript. Tu contenido no es visible para ChatGPT, Gemini ni Claude. Considera usar Server-Side Rendering (SSR) o Static Site Generation (SSG)."
       impact := "Las IAs no ven prácticamente nada de tu contenido." }] else [])
  ++ (if !robots_data.allows_all then
      (if !blocked.isEmpty then
        [{ priority := "high"
           title := "Tu robots.txt bloquea crawlers de IA"
           description := s!"Los siguientes crawlers están bloqueados: {blockedJoined}. Esto impide que indexen tu contenido."
           impact := "Estas IAs no pueden acceder a tu web." }] else []) else [])
  ++ (if word_count < 200 then
    [{ priority := "high"
       title := "Contenido insuficiente detectado"
       description := s!"Solo se detectaron {word_count} palabras. Las IAs necesitan más contenido para entender tu negocio. Añade más texto descriptivo sobre tus servicios, productos o propuesta de valor."
       impact := "Contenido mínimo dificulta la comprensión de tu marca." }]
    else if word_count < 500 then
    [{ priority := "medium"
       title := "Contenido limitado"
       description := s!"Se detectaron {word_count} palabras. Considera añadir más contenido para mejorar la comprensión de tu negocio por parte de las IAs."
       impact := "Más contenido mejora el entendimiento de tu marca." }] else [])
  ++ (if breakdown.description.status != "excellent" then
      (if desc_length == 0 then
        [{ priority := "medium"
           title := "Falta meta description"
           description := "Añade una meta description de 120-160 caracteres que resuma claramente tu propuesta de valor."
           impact := "Las IAs usan la descripción para entender tu web." }]
       else
        [{ priority := "low"
           title := "Meta description fuera del rango óptimo"
           description := s!"Tu meta description tiene {desc_length} caracteres. El rango ideal es 120-160 caracteres."
           impact := "Una descripción óptima mejora la comprensión." }]) else [])
  ++ (if h1_count == 0 then
    [{ priority := "medium"
       title := "Falta encabezado H1"
       description := "Añade exactamente un H1 que describa claramente el contenido principal de la página."
       impact := "El H1 es clave para la comprensión del tema principal." }]
    else if h1_count > 1 then
    [{ priority := "low"
       title := "Múltiples H1 detectados"
       description := s!"Se encontraron {h1_count} H1. Usa solo uno por página y estructúralo con H2/H3."
       impact := "Múltiples H1 confunden la jerarquía de contenido." }] else [])
  ++ (if !schema_data.has_schema then
    [{ priority := "medium"
       title := "No se detectaron datos estructurados"
       description := "Implementa Schema.org con JSON-LD para definir tu entidad (Organization, LocalBusiness, etc.). Esto ayuda a las IAs a entender qué eres y qué haces."
       impact := "Los datos estructurados mejoran la precisión de la IA." }] else [])
  ++ (if alt_percentage < 80 && structure_data.total_images > 0 then
    [{ priority := "low"
       title := "Imágenes sin texto alternativo"
       description := s!"{missing} imágenes no tienen atributo alt. Las IAs no pueden interpretar imágenes sin descripción textual."
       impact := "El contenido visual no es accesible para las IAs." }] else [])
  ++ (if structure_data.semantic_count < 3 then
    [{ priority := "low"
       title := "Estructura semántica limitada"
       description := "Usa más elementos semánticos HTML5 como <article>, <section>, <main>, <header> y <footer> para estructurar mejor tu contenido."
       impact := "La estructura semántica mejora la comprensión del layout." }] else [])
  ++ (if structure_data.has_noai then
    [{ priority := "info"
       title := "Meta tag 'noai' detectado"
       description := "Tu web tiene la etiqueta <meta name='robots' content='noai'>. Esto indica que no quieres ser indexado por IAs. Si no es intencional, elimínalo."
       impact := "Las IAs que respetan esta etiqueta no te indexarán." }] else [])

/-- `recommendations.sort(key=lambda x: priority_order.get(x["priority"], 5))`
(recommendations.py:141-143).  CPython's list.sort is documented stable; a
stable sort on a key with the finite range 0..5 is exactly the
concatenation of the equal-key sublists in key order, which is how it is
written here. -/
def pyStableSortByPriority (l : List Recommendation) : List Recommendation :=
  (l.filter (fun x => priority_order x.priority == 0))
  ++ (l.filter (fun x => priority_order x.priority == 1))
  ++ (l.filter (fun x => priority_order x.priority == 2))
  ++ (l.filter (fun x => priority_order x.priority == 3))
  ++ (l.filter (fun x => priority_order x.priority == 4))
  ++ (l.filter (fun x => priority_order x.priority == 5))

/-- `generate_recommendations` (recommendations.py:8-145). -/
def generate_recommendations (content_data : ContentData)
    (structure_data : StructureData) (robots_data : RobotsResult)
    (schema_data : SchemaData) (scores : ScoreResult) (is_ai_blocked : Bool) :
    List Recommendation :=
  pyStableSortByPriority
    (generate_recommendations_unsorted content_data structure_data robots_data
      schema_data scores is_ai_blocked)

/-! ## app/services/schema_detector.py

The JSON values produced by `json.loads` are embedded as an inductive
type; each `<script type="application/ld+json">` element of a document is
represented by the outcome of `script.string` plus `json.loads` on it:
no/empty content, a JSONDecodeError, or a parsed value. -/

/-- A parsed JSON value. -/
inductive JVal where
  | obj (fields : List (String × JVal))
  | arr (items : List JVal)
  | str (s : String)
  | num (n : Int)
  | bool (b : Bool)
  | null

mutual
/-- Structural equality of JSON values (Python `==` on parsed JSON). -/
def jvalBeq : JVal → JVal → Bool
  | .obj fs, .obj gs => jvalFieldsBeq fs gs
  | .arr as, .arr bs => jvalListBeq as bs
  | .str a, .str b => a == b
  | .num a, .num b => a == b
  | .bool a, .bool b => a == b
  | .null, .null => true
  | _, _ => false

def jvalListBeq : List JVal → List JVal → Bool
  | [], [] => true
  | a :: as, b :: bs => jvalBeq a b && jvalListBeq as bs
  | _, _ => false

def jvalFieldsBeq : List (String × JVal) → List (String × JVal) → Bool
  | [], [] => true
  | (k, v) :: fs, (k', v') :: gs => k == k' && jvalBeq v v' && jvalFieldsBeq fs gs
  | _, _ => false
end

instance : BEq JVal := ⟨jvalBeq⟩

/-- One JSON-LD script element, by what `script.string` / `json.loads` yield
(schema_detector.py:26-28). -/
inductive ScriptSrc where
  | noContent
  | badJson
  | parsed (v : JVal)

/-- The Python exception that escapes `detect_schema` when a parsed value is
not a dict (`.get` on a non-dict raises AttributeError, which the
`except json.JSONDecodeError` clause does not catch). -/
inductive PyErr where
  | attributeError
deriving DecidableEq

/-- `item.get('@type', 'Unknown')` when `item` is a JSON object. -/
def jGetType (fields : List (String × JVal)) : JVal :=
  (alGet? fields "@type").getD (.str "Unknown")

/-- Accumulator of `detect_schema`: the `json_ld` records (their `type`
values), the `microdata` records (type_name, itemtype), and the `types`
list in first-seen order. -/
structure SchemaScan where
  json_ld : List JVal
  microdata : List (String × String)
  types : List JVal

/-- Processing of one item of a JSON-LD array (schema_detector.py:32-39):
`.get` on a non-dict raises AttributeError. -/
def schemaScanItem (st : SchemaScan) (item : JVal) : Except PyErr SchemaScan :=
  match item with
  | .obj fields =>
    let t := jGetType fields
    let st := { st with json_ld := st.json_ld ++ [t] }
    .ok (if st.types.contains t then st else { st with types := st.types ++ [t] })
  | _ => .error .attributeError

/-- Processing of one script element (schema_detector.py:24-50): empty
content skipped, JSONDecodeError caught and skipped, a parsed list handled
item by item, a parsed dict handled directly, any other parsed value
raises AttributeError out of the whole function. -/
def schemaScanScript (st : SchemaScan) (s : ScriptSrc) : Except PyErr SchemaScan :=
  match s with
  | .noContent => .ok st
  | .badJson => .ok st
  | .parsed v =>
    match v with
    | .arr items => items.foldlM schemaScanItem st
    | .obj fields =>
      let t := jGetType fields
      let st := { st with json_ld := st.json_ld ++ [t] }
      .ok (if st.types.contains t then st else { st with types := st.types ++ [t] })
    | _ => .error .attributeError

/-- Processing of one microdata element, given its `itemtype` attribute
value, "" when absent (schema_detector.py:55-65). -/
def schemaScanMicro (st : SchemaScan) (item_type : String) : SchemaScan :=
  if !pyIsEmpty item_type then
    let type_name := if pyIn "/" item_type then ((pySplitOnChar '/' item_type).getLastD "") else item_type
    let st := { st with microdata := st.microdata ++ [(type_name, item_type)] }
    if st.types.contains (.str type_name) then st
    else { st with types := st.types ++ [.str type_name] }
  else st

/-- Result record of `detect_schema` (schema_detector.py:14-71). -/
structure SchemaResult where
  has_schema : Bool
  json_ld : List JVal
  microdata : List (String × String)
  types : List JVal
  total_schemas : Nat

/-- `detect_schema` (schema_detector.py:10-71) over the JSON-LD script
outcomes and the `itemtype` attribute values of the itemscope elements.
The return is `Except` because an AttributeError can propagate. -/
def detect_schema (scripts : List ScriptSrc) (micro_itemtypes : List String) :
    Except PyErr SchemaResult := do
  let st ← scripts.foldlM schemaScanScript ⟨[], [], []⟩
  let st := micro_itemtypes.foldl schemaScanMicro st
  return { has_schema := st.json_ld.length > 0 || st.microdata.length > 0
           json_ld := st.json_ld
           microdata := st.microdata
           types := st.types
           total_schemas := st.json_ld.length + st.microdata.length }

/-! ## The parsed HTML document (BeautifulSoup operations used by
content.py and structure.py) -/

/-- A node of the parsed markup tree. -/
inductive HNode where
  | elem (tag : String) (attrs : List (String × String)) (children : List HNode)
  | text (s : String)

/-- A document: the top-level nodes of the soup. -/
abbrev HDoc := List HNode

mutual
/-- All element descendants of a node (the node itself included), in
document (preorder) order — what `soup.find_all` iterates. -/
def nodeElems : HNode → List HNode
  | .text _ => []
  | .elem t a cs => .elem t a cs :: nodeListElems cs

def nodeListElems : List HNode → List HNode
  | [] => []
  | n :: ns => nodeElems n ++ nodeListElems ns
end

/-- Attribute lookup on an attribute list. -/
def attrGet (attrs : List (String × String)) (k : String) : Option String :=
  (attrs.find? (fun p => p.1 == k)).map (·.2)

/-- Attribute lookup on a node (`tag.get(k)`); text nodes have none. -/
def nodeAttr (n : HNode) (k : String) : Option String :=
  match n with
  | .elem _ a _ => attrGet a k
  | .text _ => none

/-- BeautifulSoup tag-name + exact attribute matching, as used by
`find_all(name, attrs)`. -/
def matchesSel (tag : String) (req : List (String × String)) (n : HNode) : Bool :=
  match n with
  | .elem t a _ => t == tag && req.all (fun kv => attrGet a kv.1 == some kv.2)
  | .text _ => false

/-- `soup.find_all(tag, attrs)`: matching elements in document order. -/
def find_all (doc : HDoc) (tag : String) (req : List (String × String)) : List HNode :=
  (nodeListElems doc).filter (matchesSel tag req)

/-- `soup.find_all(tag, attr=True)`: elements of that tag carrying the attribute. -/
def find_all_with_attr (doc : HDoc) (tag : String) (attr : String) : List HNode :=
  (nodeListElems doc).filter (fun n =>
    match n with
    | .elem t _ _ => t == tag && (nodeAttr n attr).isSome
    | .text _ => false)

mutual
/-- The text-node strings below a node, in document order. -/
def nodeStrings : HNode → List String
  | .text s => [s]
  | .elem _ _ cs => nodeListStrings cs

def nodeListStrings : List HNode → List String
  | [] => []
  | n :: ns => nodeStrings n ++ nodeListStrings ns
end

/-- `tag.get_text(separator=sep, strip=True)`: each descendant string is
stripped, empty results are dropped, the rest joined with `sep`. -/
def get_text_strip (sep : String) (n : HNode) : String :=
  String.intercalate sep (((nodeStrings n).map pyStrip).filter (fun s => !pyIsEmpty s))

/-- `soup.get_text(separator=sep, strip=True)` at document level. -/
def doc_get_text_strip (sep : String) (doc : HDoc) : String :=
  String.intercalate sep (((nodeListStrings doc).map pyStrip).filter (fun s => !pyIsEmpty s))

/-- The direct element children of a node (content.py:69). -/
def tagChildren (n : HNode) : List HNode :=
  match n with
  | .elem _ _ cs => cs.filter (fun c => match c with | .elem _ _ _ => true | .text _ => false)
  | .text _ => []

/-- BeautifulSoup `tag.string`: the single string child, recursing through
a single-element child; `none` for zero or several children. -/
def nodeString? : HNode → Option String
  | .text s => some s
  | .elem _ _ [c] => nodeString? c
  | .elem _ _ _ => none

/-! ## app/services/content.py -/

/-- SPA framework markers (content.py:11-18). -/
def SPA_MARKERS : List (String × List (String × String)) :=
  [("div", [("id", "root")]),
   ("div", [("id", "app")]),
   ("div", [("id", "__next")]),
   ("div", [("id", "__nuxt")]),
   ("app-root", []),
   ("div", [("id", "gatsby-focus-wrapper")])]

/-- Tags excluded from text extraction (content.py:21-24). -/
def EXCLUDE_TAGS : List String :=
  ["script", "style", "noscript", "iframe", "svg",
   "canvas", "video", "audio", "head", "meta", "link"]

/-- `check_spa_empty` (content.py:56-72): true iff some catalogued marker
matches an element whose stripped text is under 100 characters and which
has at most 3 direct element children. -/
def check_spa_empty (doc : HDoc) : Bool :=
  SPA_MARKERS.any (fun m =>
    (find_all doc m.1 m.2).any (fun e =>
      (get_text_strip "" e).length < 100 && (tagChildren e).length ≤ 3))

mutual
/-- `tag.decompose()` applied to every element with an excluded tag name:
the subtree is dropped, other nodes keep their filtered children. -/
def removeTagsNode (ex : List String) : HNode → List HNode
  | .text s => [.text s]
  | .elem t a cs => if ex.contains t then [] else [.elem t a (removeTagsList ex cs)]

def removeTagsList (ex : List String) : List HNode → List HNode
  | [] => []
  | n :: ns => removeTagsNode ex n ++ removeTagsList ex ns
end

/-- `re.sub(r'\s+', ' ', text)`: every maximal whitespace run becomes one space. -/
def collapseWsAux : List Char → Bool → List Char
  | [], _ => []
  | c :: cs, prevWs =>
    if c.isWhitespace then
      if prevWs then collapseWsAux cs true else ' ' :: collapseWsAux cs true
    else c :: collapseWsAux cs false

/-- Whitespace-run collapsing on a string (content.py:43). -/
def collapseWs (s : String) : String := String.mk (collapseWsAux s.toList false)

/-- `count_words` (content.py:75-80). -/
def count_words (text : String) : Nat :=
  if pyIsEmpty text then 0 else (pySplitWs text).length

/-- `extract_content` (content.py:27-53): SPA check on the full tree, then
excluded tags removed, text recovered with a space separator, whitespace
collapsed and trimmed, words counted. -/
def extract_content (doc : HDoc) : ContentData :=
  let is_spa_empty := check_spa_empty doc
  let cleaned := removeTagsList EXCLUDE_TAGS doc
  let text := pyStrip (collapseWs (doc_get_text_strip " " cleaned))
  let word_count := count_words text
  { text := text
    word_count := word_count
    is_spa_empty := is_spa_empty
    has_content := word_count > 50 }

/-! ## app/services/structure.py -/

/-- Python `round()` on the exact rational `num/den` (round half to even),
modelling `round((images_with_alt / total_images) * 100)`; `den > 0` at
every use site. -/
def pyRound (num den : Nat) : Nat :=
  let q := num / den
  let r := num % den
  if 2 * r > den then q + 1
  else if 2 * r < den then q
  else if q % 2 == 0 then q else q + 1

/-- `analyze_structure` (structure.py:9-80). -/
def analyze_structure (doc : HDoc) : StructureData :=
  let title_tag := (find_all doc "title" []).head?
  let titleStr : Option String := title_tag.bind nodeString?
  let has_title := title_tag.isSome && (match titleStr with | some s => !pyIsEmpty s | none => false)
  let title := match titleStr with
    | some s => if !pyIsEmpty s then pyStrip s else ""
    | none => ""
  let meta_desc := (find_all doc "meta" [("name", "description")]).head?
  let desc_content := match meta_desc with
    | some m => (nodeAttr m "content").getD ""
    | none => ""
  let h1_tags := find_all doc "h1" []
  let images := find_all doc "img" []
  let images_with_alt := images.filter (fun i =>
    match nodeAttr i "alt" with | some v => !v.isEmpty | none => false)
  let has_main := !(find_all doc "main" []).isEmpty
  let has_article := !(find_all doc "article" []).isEmpty
  let has_section := !(find_all doc "section" []).isEmpty
  let has_nav := !(find_all doc "nav" []).isEmpty
  let has_header := !(find_all doc "header" []).isEmpty
  let has_footer := !(find_all doc "footer" []).isEmpty
  let robots_meta := (find_all doc "meta" [("name", "robots")]).head?
  let robots_content := pyLower (match robots_meta with
    | some m => (nodeAttr m "content").getD ""
    | none => "")
  { has_title := has_title
    title := title
    title_length := title.length
    has_description := !pyIsEmpty desc_content
    description := desc_content
    description_length := desc_content.length
    h1_count := h1_tags.length
    h1_texts := (h1_tags.take 5).map (get_text_strip "")
    h2_count := (find_all doc "h2" []).length
    h3_count := (find_all doc "h3" []).length
    has_main := has_main
    has_article := has_article
    has_section := has_section
    has_nav := has_nav
    has_header := has_header
    has_footer := has_footer
    semantic_count :=
      (if has_main then 1 else 0) + (if has_article then 1 else 0)
      + (if has_section then 1 else 0) + (if has_nav then 1 else 0)
      + (if has_header then 1 else 0) + (if has_footer then 1 else 0)
    total_images := images.length
    images_with_alt := images_with_alt.length
    images_alt_percentage :=
      if images.length > 0 then pyRound (images_with_alt.length * 100) images.length else 100
    total_links := (find_all_with_attr doc "a" "href").length
    has_noai := pyIn "noai" robots_content
    has_noimageai := pyIn "noimageai" robots_content }

/-! ## app/services/analyzer.py — the Scoring Engine invocation (C1)

`analyze_url` is driven by network I/O; what claim C1 exercises is the
call binding of `calculate_score` on the success path.  Python binds a
call by matching every keyword argument against the callee's parameter
list (there is no `**kwargs` in `calculate_score`); an unmatched keyword
raises TypeError before the body runs. -/

/-- The parameters of `def calculate_score(...)` (scoring.py:49-54). -/
def calculate_score_params : List String :=
  ["content_data", "structure_data", "robots_data", "schema_data"]

/-- The keyword arguments of the `calculate_score(...)` call in
`analyze_url` (analyzer.py:113-119). -/
def analyze_url_scoring_kwargs : List String :=
  ["content_data", "structure_data", "robots_data", "schema_data", "is_ai_blocked"]

/-- The parameters of `def generate_recommendations(...)`
(recommendations.py:8-15). -/
def generate_recommendations_params : List String :=
  ["content_data", "structure_data", "robots_data", "schema_data", "scores", "is_ai_blocked"]

/-- Python call binding for keyword arguments against a callee without
`**kwargs`: every keyword must name a parameter, else TypeError. -/
def pyKwargsBind (params kwargs : List String) : Bool :=
  kwargs.all (fun k => params.contains k)

/-- AI crawler catalogue (analyzer.py:21-30). -/
def AI_CRAWLERS : List String :=
  ["GPTBot", "ChatGPT-User", "ClaudeBot", "anthropic-ai",
   "Google-Extended", "CCBot", "PerplexityBot", "Bytespider"]

/-! ## Spec-side robots resolution and concrete scenario inputs -/

/-- The crawler-resolution rule as worded in §4.4 of the spec: if the
(lowercased) crawler has its own rule list, block iff it contains a
disallow directive whose path is exactly "/" or empty; otherwise check the
wildcard agent's rules under the same test; absence of any applicable rule
set defaults to allowed.  Written from the spec to be compared with
`resolve_crawler`. -/
def spec_resolve (rules : RulesMap) (name : String) : String :=
  match alGet? rules name with
  | some own => if own.any rootDisallow then "blocked" else "allowed"
  | none =>
    match alGet? rules "*" with
    | some wild => if wild.any rootDisallow then "blocked" else "allowed"
    | none => "allowed"

/-- The status recorded for a crawler in a RobotsResult. -/
def crawler_status (r : RobotsResult) (c : String) : Option String :=
  alGet? r.crawlers c

/-- How many times a name occurs as a key of a result's crawlers mapping. -/
def keyCount {α : Type} (m : List (String × α)) (c : String) : Nat :=
  (m.map Prod.fst).count c

/-- A JSON-LD script outcome that `detect_schema` can process without an
AttributeError: unparsed content, or a parsed object / array of objects
(the shapes §4.3 of the spec describes). -/
def scriptShapeOk : ScriptSrc → Bool
  | .noContent => true
  | .badJson => true
  | .parsed (.obj _) => true
  | .parsed (.arr items) => items.all (fun i => match i with | .obj _ => true | _ => false)
  | .parsed _ => false

/-- Scenario B document (§8): a `div#root` with one element child and 10
characters of text, and nothing else. -/
def scenarioBDoc : HDoc :=
  [.elem "html" [] [.elem "body" []
    [.elem "div" [("id", "root")] [.elem "div" [] [], .text "helloworld"]]]]

/-- Robots input for scenario B: robots document absent (404). -/
def robotsB : RobotsResult := analyze_robots (.response 404 "") AI_CRAWLERS

/-- Schema input for scenario B: what `detect_schema` returns for a document
with no JSON-LD scripts and no itemscope elements (no records, no types). -/
def schemaB : SchemaData := { has_schema := false, types := [] }

/-- Score breakdown for scenario B. -/
def scoresB : ScoreResult :=
  calculate_score (extract_content scenarioBDoc) (analyze_structure scenarioBDoc) robotsB schemaB

/-- Recommendations for scenario B (no anti-bot fallback involved). -/
def recsB : List Recommendation :=
  generate_recommendations (extract_content scenarioBDoc) (analyze_structure scenarioBDoc)
    robotsB schemaB scoresB false

/-- A document with an empty `div#root` SPA shell and 51 words of static
fallback text beside it (for claim C9). -/
def c9Doc : HDoc :=
  [.elem "body" [] [.elem "div" [("id", "root")] [],
    .text (String.intercalate " " (List.replicate 51 "w"))]]

/-- A robots document in which GPTBot is named by a user-agent line that no
directive attaches to, and the wildcard agent disallows the whole site
(for claim C10). -/
def c10RobotsDoc : String := "User-agent: GPTBot\nUser-agent: *\nDisallow: /"

/-! ## Theorems -/

set_option maxRecDepth 100000

/-- Claim C1.  On the success path (status below 400) `analyze_url` calls
`calculate_score` with the keyword argument `is_ai_blocked`
(analyzer.py:113-119), but `calculate_score` accepts only the four
analysis-result parameters (scoring.py:49-54) and has no `**kwargs`, so
Python raises `TypeError: unexpected keyword argument` before the scoring
body runs — the claim that the invocation returns a ScoreBreakdown without
raising is false.  The sibling call to `generate_recommendations` with the
same keyword set binds fine, which shows the flag was intended to be
accepted. -/
theorem c1_scoring_call_fails_to_bind :
    analyze_url_scoring_kwargs.contains "is_ai_blocked" = true ∧
    calculate_score_params.contains "is_ai_blocked" = false ∧
    pyKwargsBind calculate_score_params analyze_url_scoring_kwargs = false ∧
    pyKwargsBind generate_recommendations_params analyze_url_scoring_kwargs = true := by
  decide

/-- Claim C3.  Each of the nine breakdown categories carries exactly the
score and status of its spec-table step function, applied to that
category's own datum alone, for every combination of inputs. -/
theorem c3_breakdown_matches_spec_step_functions (cd : ContentData) (sd : StructureData)
    (rd : RobotsResult) (sc : SchemaData) :
    (((calculate_score cd sd rd sc).breakdown.content.score,
      (calculate_score cd sd rd sc).breakdown.content.status) = spec_content_rule cd.word_count) ∧
    (((calculate_score cd sd rd sc).breakdown.title.score,
      (calculate_score cd sd rd sc).breakdown.title.status) = spec_title_rule sd.has_title sd.title_length) ∧
    (((calculate_score cd sd rd sc).breakdown.description.score,
      (calculate_score cd sd rd sc).breakdown.description.status) = spec_description_rule sd.has_description sd.description_length) ∧
    (((calculate_score cd sd rd sc).breakdown.h1.score,
      (calculate_score cd sd rd sc).breakdown.h1.status) = spec_h1_rule sd.h1_count) ∧
    (((calculate_score cd sd rd sc).breakdown.structure_.score,
      (calculate_score cd sd rd sc).breakdown.structure_.status) = spec_structure_rule sd.semantic_count) ∧
    (((calculate_score cd sd rd sc).breakdown.no_spa.score,
      (calculate_score cd sd rd sc).breakdown.no_spa.status) = spec_no_spa_rule cd.is_spa_empty cd.has_content) ∧
    (((calculate_score cd sd rd sc).breakdown.robots.score,
      (calculate_score cd sd rd sc).breakdown.robots.status) = spec_robots_rule rd.allows_all (rd.blocked_count.getD 0)) ∧
    (((calculate_score cd sd rd sc).breakdown.alt_text.score,
      (calculate_score cd sd rd sc).breakdown.alt_text.status) = spec_alt_text_rule sd.images_alt_percentage) ∧
    (((calculate_score cd sd rd sc).breakdown.schema.score,
      (calculate_score cd sd rd sc).breakdown.schema.status) = spec_schema_rule sc.has_schema) :=
  ⟨rfl, rfl, rfl, rfl, rfl, rfl, rfl, rfl, rfl⟩

/-- Upper bound of the content rule. -/
theorem spec_content_rule_fst_le (wc : Nat) : (spec_content_rule wc).1 ≤ 25 := by
  unfold spec_content_rule; (repeat' split) <;> decide

/-- Upper bound of the title rule. -/
theorem spec_title_rule_fst_le (ht : Bool) (tl : Nat) : (spec_title_rule ht tl).1 ≤ 10 := by
  unfold spec_title_rule; (repeat' split) <;> decide

/-- Upper bound of the description rule. -/
theorem spec_description_rule_fst_le (hd : Bool) (dl : Nat) : (spec_description_rule hd dl).1 ≤ 10 := by
  unfold spec_description_rule; (repeat' split) <;> decide

/-- Upper bound of the h1 rule. -/
theorem spec_h1_rule_fst_le (c : Nat) : (spec_h1_rule c).1 ≤ 10 := by
  unfold spec_h1_rule; (repeat' split) <;> decide

/-- Upper bound of the structure rule. -/
theorem spec_structure_rule_fst_le (c : Nat) : (spec_structure_rule c).1 ≤ 10 := by
  unfold spec_structure_rule; (repeat' split) <;> decide

/-- Upper bound of the no_spa rule. -/
theorem spec_no_spa_rule_fst_le (a b : Bool) : (spec_no_spa_rule a b).1 ≤ 15 := by
  unfold spec_no_spa_rule; (repeat' split) <;> decide

/-- Upper bound of the robots rule. -/
theorem spec_robots_rule_fst_le (a : Bool) (bc : Nat) : (spec_robots_rule a bc).1 ≤ 10 := by
  unfold spec_robots_rule; (repeat' split) <;> decide

/-- Upper bound of the alt_text rule. -/
theorem spec_alt_text_rule_fst_le (p : Nat) : (spec_alt_text_rule p).1 ≤ 5 := by
  unfold spec_alt_text_rule; (repeat' split) <;> decide

/-- Upper bound of the schema rule. -/
theorem spec_schema_rule_fst_le (h : Bool) : (spec_schema_rule h).1 ≤ 5 := by
  unfold spec_schema_rule; (repeat' split) <;> decide

/-- Claim C4.  The total is the sum of the nine category scores, the
category maxima are the fixed constants summing to 100, the returned `max`
is 100, every category score is within its maximum, and the total is at
most 100 (scores are naturals, so all lower bounds are 0). -/
theorem c4_total_is_bounded_sum (cd : ContentData) (sd : StructureData)
    (rd : RobotsResult) (sc : SchemaData) :
    ((calculate_score cd sd rd sc).total =
      (calculate_score cd sd rd sc).breakdown.content.score
      + (calculate_score cd sd rd sc).breakdown.title.score
      + (calculate_score cd sd rd sc).breakdown.description.score
      + (calculate_score cd sd rd sc).breakdown.h1.score
      + (calculate_score cd sd rd sc).breakdown.structure_.score
      + (calculate_score cd sd rd sc).breakdown.no_spa.score
      + (calculate_score cd sd rd sc).breakdown.robots.score
      + (calculate_score cd sd rd sc).breakdown.alt_text.score
      + (calculate_score cd sd rd sc).breakdown.schema.score) ∧
    (calculate_score cd sd rd sc).max = 100 ∧
    (calculate_score cd sd rd sc).breakdown.content.score ≤ (calculate_score cd sd rd sc).breakdown.content.max ∧
    (calculate_score cd sd rd sc).breakdown.title.score ≤ (calculate_score cd sd rd sc).breakdown.title.max ∧
    (calculate_score cd sd rd sc).breakdown.description.score ≤ (calculate_score cd sd rd sc).breakdown.description.max ∧
    (calculate_score cd sd rd sc).breakdown.h1.score ≤ (calculate_score cd sd rd sc).breakdown.h1.max ∧
    (calculate_score cd sd rd sc).breakdown.structure_.score ≤ (calculate_score cd sd rd sc).breakdown.structure_.max ∧
    (calculate_score cd sd rd sc).breakdown.no_spa.score ≤ (calculate_score cd sd rd sc).breakdown.no_spa.max ∧
    (calculate_score cd sd rd sc).breakdown.robots.score ≤ (calculate_score cd sd rd sc).breakdown.robots.max ∧
    (calculate_score cd sd rd sc).breakdown.alt_text.score ≤ (calculate_score cd sd rd sc).breakdown.alt_text.max ∧
    (calculate_score cd sd rd sc).breakdown.schema.score ≤ (calculate_score cd sd rd sc).breakdown.schema.max ∧
    ((calculate_score cd sd rd sc).breakdown.content.max
      + (calculate_score cd sd rd sc).breakdown.title.max
      + (calculate_score cd sd rd sc).breakdown.description.max
      + (calculate_score cd sd rd sc).breakdown.h1.max
      + (calculate_score cd sd rd sc).breakdown.structure_.max
      + (calculate_score cd sd rd sc).breakdown.no_spa.max
      + (calculate_score cd sd rd sc).breakdown.robots.max
      + (calculate_score cd sd rd sc).breakdown.alt_text.max
      + (calculate_score cd sd rd sc).breakdown.schema.max = 100) ∧
    (calculate_score cd sd rd sc).total ≤ 100 := by
  refine ⟨rfl, rfl,
    spec_content_rule_fst_le cd.word_count,
    spec_title_rule_fst_le sd.has_title sd.title_length,
    spec_description_rule_fst_le sd.has_description sd.description_length,
    spec_h1_rule_fst_le sd.h1_count,
    spec_structure_rule_fst_le sd.semantic_count,
    spec_no_spa_rule_fst_le cd.is_spa_empty cd.has_content,
    spec_robots_rule_fst_le rd.allows_all (rd.blocked_count.getD 0),
    spec_alt_text_rule_fst_le sd.images_alt_percentage,
    spec_schema_rule_fst_le sc.has_schema,
    rfl, ?_⟩
  have h1 := spec_content_rule_fst_le cd.word_count
  have h2 := spec_title_rule_fst_le sd.has_title sd.title_length
  have h3 := spec_description_rule_fst_le sd.has_description sd.description_length
  have h4 := spec_h1_rule_fst_le sd.h1_count
  have h5 := spec_structure_rule_fst_le sd.semantic_count
  have h6 := spec_no_spa_rule_fst_le cd.is_spa_empty cd.has_content
  have h7 := spec_robots_rule_fst_le rd.allows_all (rd.blocked_count.getD 0)
  have h8 := spec_alt_text_rule_fst_le sd.images_alt_percentage
  have h9 := spec_schema_rule_fst_le sc.has_schema
  show (spec_content_rule cd.word_count).1
      + (spec_title_rule sd.has_title sd.title_length).1
      + (spec_description_rule sd.has_description sd.description_length).1
      + (spec_h1_rule sd.h1_count).1
      + (spec_structure_rule sd.semantic_count).1
      + (spec_no_spa_rule cd.is_spa_empty cd.has_content).1
      + (spec_robots_rule rd.allows_all (rd.blocked_count.getD 0)).1
      + (spec_alt_text_rule sd.images_alt_percentage).1
      + (spec_schema_rule sc.has_schema).1 ≤ 100
  omega

/-- Unfolding of `alGet?` on a cons cell. -/
theorem alGet?_cons {α : Type} (p : String × α) (ps : List (String × α)) (x : String) :
    alGet? (p :: ps) x = if p.1 = x then some p.2 else alGet? ps x := by
  unfold alGet?
  by_cases h : p.1 = x
  · rw [List.find?_cons_of_pos _ (by simpa [beq_iff_eq] using h), if_pos h]
    rfl
  · rw [List.find?_cons_of_neg _ (by simpa [beq_iff_eq] using h), if_neg h]

/-- Unfolding of `alContains` on a cons cell. -/
theorem alContains_cons {α : Type} (p : String × α) (ps : List (String × α)) (x : String) :
    alContains (p :: ps) x = (p.1 = x || alContains ps x) := by
  unfold alContains
  by_cases h : p.1 = x <;> simp [List.any_cons, h, beq_iff_eq]

/-- Key lookup after a dict assignment: the assigned key reads the new
value, every other key is unaffected. -/
theorem alGet?_dictInsert {α : Type} (m : List (String × α)) (k : String) (v : α) (x : String) :
    alGet? (dictInsert m k v) x = if x = k then some v else alGet? m x := by
  induction m with
  | nil =>
    show alGet? [(k, v)] x = if x = k then some v else alGet? [] x
    rw [alGet?_cons]
    by_cases h : x = k
    · simp [h]
    · simp [h, Ne.symm h]
  | cons p ps ih =>
    simp only [dictInsert]
    by_cases hp : p.1 = k
    · rw [if_pos (by simpa [beq_iff_eq] using hp)]
      rw [alGet?_cons, alGet?_cons]
      by_cases hx : x = k
      · simp [hx]
      · have hpx : ¬p.1 = x := fun h => hx (h.symm.trans hp)
        simp [hx, Ne.symm hx, hpx]
    · rw [if_neg (by simpa [beq_iff_eq] using hp)]
      rw [alGet?_cons, alGet?_cons]
      by_cases hpx : p.1 = x
      · have hxk : ¬x = k := fun h => hp (hpx.trans h)
        simp [hpx, hxk]
      · simp [hpx, ih]

/-- Key membership after a dict assignment. -/
theorem alContains_dictInsert_iff {α : Type} (m : List (String × α)) (k : String) (v : α) (x : String) :
    alContains (dictInsert m k v) x = true ↔ (alContains m x = true ∨ x = k) := by
  induction m with
  | nil =>
    show alContains [(k, v)] x = true ↔ _
    simp only [alContains_cons, Bool.or_eq_true, decide_eq_true_iff]
    simp [alContains]
    exact eq_comm
  | cons p ps ih =>
    simp only [dictInsert]
    by_cases hp : p.1 = k
    · rw [if_pos (by simpa [beq_iff_eq] using hp)]
      simp only [alContains_cons, Bool.or_eq_true, decide_eq_true_iff, hp]
      constructor
      · exact fun h => Or.inl h
      · rintro ((h | h) | h)
        · exact Or.inl h
        · exact Or.inr h
        · exact Or.inl h.symm
    · rw [if_neg (by simpa [beq_iff_eq] using hp)]
      simp only [alContains_cons, Bool.or_eq_true, decide_eq_true_iff]
      rw [ih]
      tauto

/-- `alContains` is definedness of `alGet?`. -/
theorem alContains_iff_exists {α : Type} (m : List (String × α)) (k : String) :
    alContains m k = true ↔ ∃ v, alGet? m k = some v := by
  induction m with
  | nil => simp [alContains, alGet?]
  | cons p ps ih =>
    rw [alContains_cons, alGet?_cons]
    by_cases h : p.1 = k
    · simp [h]
    · simp [h, ih]

/-- `alContains` false is `alGet?` none. -/
theorem alContains_false_iff_none {α : Type} (m : List (String × α)) (k : String) :
    alContains m k = false ↔ alGet? m k = none := by
  induction m with
  | nil => simp [alContains, alGet?]
  | cons p ps ih =>
    rw [alContains_cons, alGet?_cons]
    by_cases h : p.1 = k
    · simp [h]
    · simp [h, ih]

/-- The key list after a dict assignment: unchanged when the key was
present, the key appended when it was not. -/
theorem keys_dictInsert {α : Type} (m : List (String × α)) (k : String) (v : α) :
    (dictInsert m k v).map Prod.fst =
      if alContains m k then m.map Prod.fst else m.map Prod.fst ++ [k] := by
  induction m with
  | nil => simp [dictInsert, alContains]
  | cons p ps ih =>
    simp only [dictInsert]
    by_cases hp : p.1 = k
    · rw [if_pos (by simpa [beq_iff_eq] using hp)]
      rw [if_pos (by rw [alContains_cons]; simp [hp])]
      simp [hp]
    · rw [if_neg (by simpa [beq_iff_eq] using hp)]
      have hcc : alContains (p :: ps) k = alContains ps k := by
        rw [alContains_cons]; simp [hp]
      rw [hcc]
      by_cases hps : alContains ps k
      · simp only [hps, if_true] at ih ⊢
        simp [ih]
      · simp only [Bool.not_eq_true] at hps
        simp only [hps, Bool.false_eq_true, if_false] at ih ⊢
        simp [ih]

/-- Effect of a dict assignment on how often a name occurs as a key. -/
theorem keyCount_dictInsert {α : Type} (m : List (String × α)) (k : String) (v : α) (x : String) :
    keyCount (dictInsert m k v) x =
      if alContains m k then keyCount m x
      else keyCount m x + (if x = k then 1 else 0) := by
  unfold keyCount
  rw [keys_dictInsert]
  by_cases hc : alContains m k
  · simp [hc]
  · simp only [Bool.not_eq_true] at hc
    simp only [hc, Bool.false_eq_true, if_false, List.count_append, List.count_singleton]
    by_cases hx : x = k
    · simp [hx]
    · simp [hx, Ne.symm hx]

/-- A dict assignment preserves the invariant "the key occurs once iff it
is present". -/
theorem good_dictInsert {α : Type} (m : List (String × α)) (d : String) (v : α) (x : String)
    (h : keyCount m x = if alContains m x then 1 else 0) :
    keyCount (dictInsert m d v) x = if alContains (dictInsert m d v) x then 1 else 0 := by
  have hiff := alContains_dictInsert_iff m d v x
  rw [keyCount_dictInsert]
  by_cases hcd : alContains m d
  · simp only [hcd, if_true]
    by_cases hmx : alContains m x = true
    · have h1 : alContains (dictInsert m d v) x = true := hiff.mpr (Or.inl hmx)
      simp [h, hmx, h1]
    · have hmx' : alContains m x = false := by simpa using hmx
      by_cases hxd : x = d
      · exact absurd (hxd ▸ hcd) (by simp [hmx'])
      · have h1 : alContains (dictInsert m d v) x = false := by
          rw [← Bool.not_eq_true]
          intro hh
          rcases hiff.mp hh with h' | h'
          · exact hmx h'
          · exact hxd h'
        simp [h, hmx', h1]
  · have hcd' : alContains m d = false := by simpa using hcd
    simp only [hcd', Bool.false_eq_true, if_false]
    by_cases hxd : x = d
    · subst hxd
      have h1 : alContains (dictInsert m x v) x = true := hiff.mpr (Or.inr rfl)
      simp [h, hcd', h1]
    · by_cases hmx : alContains m x = true
      · have h1 : alContains (dictInsert m d v) x = true := hiff.mpr (Or.inl hmx)
        simp [h, hmx, h1, hxd]
      · have hmx' : alContains m x = false := by simpa using hmx
        have h1 : alContains (dictInsert m d v) x = false := by
          rw [← Bool.not_eq_true]
          intro hh
          rcases hiff.mp hh with h' | h'
          · exact hmx h'
          · exact hxd h'
        simp [h, hmx', h1, hxd]

/-- Folding plain dict assignments preserves the once-iff-present invariant. -/
theorem insertFold_good (f : String → String) (cs : List String)
    (m : List (String × String)) (x : String)
    (h : keyCount m x = if alContains m x then 1 else 0) :
    keyCount (cs.foldl (fun m c => dictInsert m c (f c)) m) x =
      if alContains (cs.foldl (fun m c => dictInsert m c (f c)) m) x then 1 else 0 := by
  induction cs generalizing m with
  | nil => exact h
  | cons d ds ih =>
    rw [List.foldl_cons]
    exact ih (dictInsert m d (f d)) (good_dictInsert m d (f d) x h)

/-- After folding dict assignments over every name of a list, every listed
name is a present key. -/
theorem insertFold_contains (f : String → String) (cs : List String)
    (m : List (String × String)) (x : String)
    (h : x ∈ cs ∨ alContains m x = true) :
    alContains (cs.foldl (fun m c => dictInsert m c (f c)) m) x = true := by
  induction cs generalizing m with
  | nil =>
    rcases h with h | h
    · cases h
    · simpa using h
  | cons d ds ih =>
    rw [List.foldl_cons]
    rcases h with h | h
    · rcases List.mem_cons.mp h with h | h
      · exact ih _ (Or.inr ((alContains_dictInsert_iff m d (f d) x).mpr (Or.inr h)))
      · exact ih _ (Or.inl h)
    · exact ih _ (Or.inr ((alContains_dictInsert_iff m d (f d) x).mpr (Or.inl h)))

/-- The fill-in loop preserves the once-iff-present invariant. -/
theorem fillFold_good (cs : List String) (m : List (String × String)) (x : String)
    (h : keyCount m x = if alContains m x then 1 else 0) :
    keyCount (cs.foldl robotsFillStep m) x =
      if alContains (cs.foldl robotsFillStep m) x then 1 else 0 := by
  induction cs generalizing m with
  | nil => exact h
  | cons d ds ih =>
    rw [List.foldl_cons]
    unfold robotsFillStep
    by_cases hc : alContains m d
    · simpa [hc] using ih m h
    · have hc' : alContains m d = false := by simpa using hc
      simp only [hc', Bool.false_eq_true, if_false]
      exact ih _ (good_dictInsert m d "allowed" x h)

/-- The fill-in loop never removes a present key. -/
theorem fillFold_contains_mono (cs : List String) (m : List (String × String)) (x : String)
    (h : alContains m x = true) :
    alContains (cs.foldl robotsFillStep m) x = true := by
  induction cs generalizing m with
  | nil => exact h
  | cons d ds ih =>
    rw [List.foldl_cons]
    unfold robotsFillStep
    by_cases hc : alContains m d
    · simpa [hc] using ih m h
    · have hc' : alContains m d = false := by simpa using hc
      simp only [hc', Bool.false_eq_true, if_false]
      exact ih _ ((alContains_dictInsert_iff m d "allowed" x).mpr (Or.inl h))

/-- The crawler-status component of the first loop of `parse_robots` is a
plain fold of dict assignments. -/
theorem statusFold_fst (rules : RulesMap) (cs : List String)
    (acc : List (String × String) × Nat) :
    (cs.foldl (robotsStatusStep rules) acc).1 =
      cs.foldl (fun m c => dictInsert m c (resolve_crawler rules c)) acc.1 := by
  induction cs generalizing acc with
  | nil => rfl
  | cons d ds ih => rw [List.foldl_cons, List.foldl_cons]; exact ih _

/-- Every robots outcome records every requested crawler exactly once. -/
theorem analyze_robots_keyCount (fetch : RobotsFetch) (cs : List String) (c : String)
    (hc : c ∈ cs) : keyCount (analyze_robots fetch cs).crawlers c = 1 := by
  have hempty : keyCount ([] : List (String × String)) c =
      if alContains ([] : List (String × String)) c then 1 else 0 := by
    simp [keyCount, alContains]
  have hconst : ∀ v : String, keyCount (pyDictConst cs v) c = 1 := by
    intro v
    unfold pyDictConst
    rw [insertFold_good (fun _ => v) cs [] c hempty,
      if_pos (insertFold_contains (fun _ => v) cs [] c (Or.inl hc))]
  cases fetch with
  | response code body =>
    show keyCount (if code == 404 then _ else if code != 200 then _ else parse_robots body cs).crawlers c = 1
    by_cases h404 : (code == 404 : Bool)
    · simpa [h404] using hconst "allowed"
    · by_cases h200 : (code != 200 : Bool)
      · simpa [h404, h200] using hconst "unknown"
      · simp only [h404, Bool.false_eq_true, if_false, h200]
        show keyCount (cs.foldl robotsFillStep
          (cs.foldl (robotsStatusStep (robots_rules body)) ([], 0)).1) c = 1
        rw [statusFold_fst]
        have hg := insertFold_good (fun c => resolve_crawler (robots_rules body) c) cs [] c hempty
        have hcont := insertFold_contains (fun c => resolve_crawler (robots_rules body) c) cs [] c (Or.inl hc)
        rw [fillFold_good cs _ c hg,
          if_pos (fillFold_contains_mono cs _ c hcont)]
  | exn msg => simpa using hconst "unknown"

/-- On every outcome the result satisfies
`allows_all = (blocked_count.getD 0 == 0)` (the consumers' reading of a
possibly-absent key). -/
theorem analyze_robots_allows_eq (fetch : RobotsFetch) (cs : List String) :
    (analyze_robots fetch cs).allows_all =
      ((analyze_robots fetch cs).blocked_count.getD 0 == 0) := by
  cases fetch with
  | response code body =>
    simp only [analyze_robots]
    by_cases h404 : (code == 404 : Bool)
    · simp [h404]
    · by_cases h200 : (code != 200 : Bool)
      · simp [h404, h200]
      · simp only [h404, Bool.false_eq_true, if_false, h200]
        rfl
  | exn msg => rfl

/-- Claim C2 counterexample.  In the not-found outcome (and on fetch
errors) the returned dict carries no "blocked_count" key at all, so the
claimed invariant `allows_all == (blocked_count == 0)` is not a statement
about a present field in those outcomes. -/
theorem c2_counterexample_blocked_count_absent :
    (analyze_robots (.response 404 "") ["GPTBot"]).blocked_count = none ∧
    (analyze_robots (.response 404 "") ["GPTBot"]).allows_all = true ∧
    (analyze_robots (.exn "timeout") ["GPTBot"]).blocked_count = none :=
  ⟨rfl, rfl, rfl⟩

/-- Claim C2 (amended).  For every robots-document outcome,
`allows_all == (blocked_count == 0)` holds with a missing blocked_count key
read as 0 (as every consumer reads it), and every requested crawler name
appears exactly once as a key of the crawlers mapping. -/
theorem c2_robots_result_invariants (fetch : RobotsFetch) (cs : List String) :
    ((analyze_robots fetch cs).allows_all =
      ((analyze_robots fetch cs).blocked_count.getD 0 == 0)) ∧
    (∀ c ∈ cs, keyCount (analyze_robots fetch cs).crawlers c = 1) :=
  ⟨analyze_robots_allows_eq fetch cs,
   fun c hc => analyze_robots_keyCount fetch cs c hc⟩

/-- Witness for C2's theorem at a concrete outcome and crawler list. -/
theorem c2_robots_result_invariants_witness :
    keyCount (analyze_robots (.response 200 "User-agent: *\nDisallow: /") ["GPTBot"]).crawlers
      "GPTBot" = 1 :=
  (c2_robots_result_invariants (.response 200 "User-agent: *\nDisallow: /") ["GPTBot"]).2
    "GPTBot" (by decide)

/-- Processing one well-shaped JSON-LD array item never raises. -/
theorem schemaScanItem_ok (st : SchemaScan) (item : JVal)
    (h : (match item with | JVal.obj _ => true | _ => false) = true) :
    ∃ st', schemaScanItem st item = .ok st' := by
  cases item with
  | obj fields => exact ⟨_, rfl⟩
  | arr items => simp at h
  | str s => simp at h
  | num n => simp at h
  | bool b => simp at h
  | null => simp at h

/-- Folding well-shaped array items never raises. -/
theorem schemaScanItems_ok (items : List JVal) (st : SchemaScan)
    (h : items.all (fun i => match i with | JVal.obj _ => true | _ => false) = true) :
    ∃ st', items.foldlM schemaScanItem st = .ok st' := by
  induction items generalizing st with
  | nil => exact ⟨st, rfl⟩
  | cons i is ih =>
    rw [List.all_cons, Bool.and_eq_true] at h
    obtain ⟨st1, h1⟩ := schemaScanItem_ok st i h.1
    obtain ⟨st2, h2⟩ := ih st1 h.2
    refine ⟨st2, ?_⟩
    rw [List.foldlM_cons, h1]
    simpa using h2

/-- Processing one well-shaped script never raises. -/
theorem schemaScanScript_ok (st : SchemaScan) (s : ScriptSrc)
    (h : scriptShapeOk s = true) :
    ∃ st', schemaScanScript st s = .ok st' := by
  cases s with
  | noContent => exact ⟨st, rfl⟩
  | badJson => exact ⟨st, rfl⟩
  | parsed v =>
    cases v with
    | obj fields => exact ⟨_, rfl⟩
    | arr items => exact schemaScanItems_ok items st (by simpa [scriptShapeOk] using h)
    | str s => simp [scriptShapeOk] at h
    | num n => simp [scriptShapeOk] at h
    | bool b => simp [scriptShapeOk] at h
    | null => simp [scriptShapeOk] at h

/-- Folding well-shaped scripts never raises. -/
theorem schemaScanScripts_ok (scripts : List ScriptSrc) (st : SchemaScan)
    (h : scripts.all scriptShapeOk = true) :
    ∃ st', scripts.foldlM schemaScanScript st = .ok st' := by
  induction scripts generalizing st with
  | nil => exact ⟨st, rfl⟩
  | cons s ss ih =>
    rw [List.all_cons, Bool.and_eq_true] at h
    obtain ⟨st1, h1⟩ := schemaScanScript_ok st s h.1
    obtain ⟨st2, h2⟩ := ih st1 h.2
    refine ⟨st2, ?_⟩
    rw [List.foldlM_cons, h1]
    simpa using h2

/-- Claim C7 counterexample.  A script whose content is valid JSON but not
an object (here the number 42) makes `detect_schema` raise an
AttributeError that the JSONDecodeError handler does not catch — so
"detect_schema never raises for any document" is false. -/
theorem c7_counterexample_scalar_json_raises :
    detect_schema [.parsed (.num 42)] [] = .error .attributeError := rfl

/-- Claim C7 (amended).  Scripts whose content fails to parse as JSON are
skipped individually, and `detect_schema` returns without raising whenever
every successfully parsed script value is an object or an array of objects;
in particular scenario D (an invalid block followed by a valid Organization
block) yields has_schema, types == [Organization], and no exception. -/
theorem c7_bad_json_skipped (scripts : List ScriptSrc) (micro : List String)
    (h : scripts.all scriptShapeOk = true) :
    (detect_schema scripts micro).isOk = true ∧
    detect_schema [.badJson, .parsed (.obj [("@type", .str "Organization")])] [] =
      .ok { has_schema := true, json_ld := [.str "Organization"], microdata := [],
            types := [.str "Organization"], total_schemas := 1 } := by
  refine ⟨?_, rfl⟩
  obtain ⟨st, hst⟩ := schemaScanScripts_ok scripts ⟨[], [], []⟩ h
  unfold detect_schema
  rw [hst]
  rfl

/-- Witness for C7's amended theorem at scenario D's input. -/
theorem c7_bad_json_skipped_witness :
    (detect_schema [.badJson, .parsed (.obj [("@type", .str "Organization")])] []).isOk = true :=
  (c7_bad_json_skipped [.badJson, .parsed (.obj [("@type", .str "Organization")])] []
    (by decide)).1

/-- `count_words` computes the whitespace token count of its input. -/
theorem count_words_eq_split (text : String) :
    count_words text = (pySplitWs text).length := by
  unfold count_words
  split
  · next h =>
    obtain ⟨data⟩ := text
    have hd : data = [] := by simpa [pyIsEmpty] using h
    subst hd
    rfl
  · rfl

/-- Claim C9.  Every ContentResult satisfies
`has_content = (word_count > 50)` and `word_count = |text.split()|`, and
the flag is independent of `is_spa_empty`: the concrete document `c9Doc`
(an empty `div#root` shell next to 51 words of static text) has both
`is_spa_empty` and `has_content` true. -/
theorem c9_content_result_invariants :
    (∀ doc : HDoc, ((extract_content doc).has_content = true ↔
      (extract_content doc).word_count > 50)) ∧
    (∀ doc : HDoc, (extract_content doc).word_count =
      (pySplitWs (extract_content doc).text).length) ∧
    (extract_content c9Doc).is_spa_empty = true ∧
    (extract_content c9Doc).has_content = true := by
  refine ⟨fun doc => ?_, fun doc => ?_, by decide, by decide⟩
  · simp [extract_content]
  · exact count_words_eq_split _

/-- Claim C8.  `check_spa_empty` returns true iff some catalogued SPA
marker matches an element whose stripped text is under 100 characters and
which has at most 3 direct element children; and scenario B (a `div#root`
with one element child and 10 characters of text, nothing else) scores
no_spa=0, content=2, title=0, h1=0 and its first recommendation is the
critical client-side-rendering one. -/
theorem c8_spa_shell_and_scenarioB :
    (∀ doc : HDoc, (check_spa_empty doc = true ↔
       ∃ m ∈ SPA_MARKERS, ∃ e ∈ find_all doc m.1 m.2,
         (get_text_strip "" e).length < 100 ∧ (tagChildren e).length ≤ 3)) ∧
    scoresB.breakdown.no_spa.score = 0 ∧
    scoresB.breakdown.content.score = 2 ∧
    scoresB.breakdown.title.score = 0 ∧
    scoresB.breakdown.h1.score = 0 ∧
    (recsB.head?.map (fun r => r.priority)) = some "critical" ∧
    (recsB.head?.map (fun r => r.title)) =
      some "Tu web usa Client-Side Rendering (SPA vacía)" := by
  refine ⟨fun doc => ?_, by decide, by decide, by decide, by decide, by decide, by decide⟩
  unfold check_spa_empty
  simp [List.any_eq_true]

/-- Folding dict assignments of `f`-values: every processed key reads the
value `f` gives it (values already of that form are preserved). -/
theorem insertFold_lookup (f : String → String) (cs : List String)
    (m : List (String × String)) (x : String)
    (hinv : ∀ y, alGet? m y = none ∨ alGet? m y = some (f y))
    (hx : x ∈ cs ∨ alGet? m x = some (f x)) :
    alGet? (cs.foldl (fun m c => dictInsert m c (f c)) m) x = some (f x) := by
  induction cs generalizing m with
  | nil =>
    rcases hx with h | h
    · cases h
    · simpa using h
  | cons d ds ih =>
    rw [List.foldl_cons]
    refine ih (dictInsert m d (f d)) (fun y => ?_) ?_
    · rw [alGet?_dictInsert]
      by_cases hy : y = d
      · subst hy; simp
      · simp only [hy, if_false]
        exact hinv y
    · rcases hx with h | h
      · rcases List.mem_cons.mp h with h | h
        · subst h
          right
          rw [alGet?_dictInsert, if_pos rfl]
        · exact Or.inl h
      · right
        rw [alGet?_dictInsert]
        by_cases hxd : x = d
        · subst hxd; simp
        · simpa [hxd] using h

/-- The fill-in loop never changes the value recorded for a present key. -/
theorem fillFold_lookup_preserve (cs : List String) (m : List (String × String))
    (x : String) (v : String) (h : alGet? m x = some v) :
    alGet? (cs.foldl robotsFillStep m) x = some v := by
  induction cs generalizing m with
  | nil => simpa using h
  | cons d ds ih =>
    rw [List.foldl_cons]
    unfold robotsFillStep
    by_cases hc : alContains m d
    · simpa [hc] using ih m h
    · have hc' : alContains m d = false := by simpa using hc
      simp only [hc', Bool.false_eq_true, if_false]
      refine ih _ ?_
      rw [alGet?_dictInsert]
      by_cases hxd : x = d
      · subst hxd
        have : alContains m x = true := (alContains_iff_exists m x).mpr ⟨v, h⟩
        rw [this] at hc'
        cases hc'
      · simpa [hxd] using h

/-- The status `parse_robots` records for a requested crawler is exactly
what the per-crawler loop body computes for it. -/
theorem parse_robots_status (content : String) (cs : List String) (c : String)
    (hc : c ∈ cs) :
    crawler_status (parse_robots content cs) c =
      some (resolve_crawler (robots_rules content) c) := by
  show alGet? (cs.foldl robotsFillStep
    (cs.foldl (robotsStatusStep (robots_rules content)) ([], 0)).1) c = _
  rw [statusFold_fst]
  refine fillFold_lookup_preserve cs _ c _ ?_
  refine insertFold_lookup _ cs [] c (fun y => Or.inl rfl) (Or.inl hc)

/-- The loop body of `parse_robots` implements the spec's resolution rule
on the lowercased crawler name. -/
theorem resolve_eq_spec (rules : RulesMap) (c : String) :
    resolve_crawler rules c = spec_resolve rules (pyLower c) := by
  show (if alContains rules (pyLower c) then
      (if ((alGet? rules (pyLower c)).getD []).any rootDisallow then "blocked" else "allowed")
    else if alContains rules "*" then
      (if ((alGet? rules "*").getD []).any rootDisallow then "blocked" else "allowed")
    else "allowed") = spec_resolve rules (pyLower c)
  unfold spec_resolve
  cases h : alGet? rules (pyLower c) with
  | some own =>
    have hc : alContains rules (pyLower c) = true := (alContains_iff_exists _ _).mpr ⟨own, h⟩
    rw [if_pos hc]
    rfl
  | none =>
    have hc : alContains rules (pyLower c) = false := (alContains_false_iff_none _ _).mpr h
    rw [if_neg (by simp [hc])]
    cases h2 : alGet? rules "*" with
    | some wild =>
      have hc2 : alContains rules "*" = true := (alContains_iff_exists _ _).mpr ⟨wild, h2⟩
      rw [if_pos hc2]
      rfl
    | none =>
      have hc2 : alContains rules "*" = false := (alContains_false_iff_none _ _).mpr h2
      rw [if_neg (by simp [hc2])]

/-- The scenario C rule table. -/
theorem scenarioC_rules :
    robots_rules "User-agent: *\nDisallow: /" = [("*", [("disallow", "/")])] := by
  decide

/-- Under a wildcard full-site disallow, the loop body blocks every
crawler name. -/
theorem scenarioC_resolve_blocked (c : String) :
    resolve_crawler [("*", [("disallow", "/")])] c = "blocked" := by
  show (if alContains [("*", [("disallow", "/")])] (pyLower c) then
      (if ((alGet? [("*", [("disallow", "/")])] (pyLower c)).getD []).any rootDisallow
        then "blocked" else "allowed")
    else if alContains [("*", [("disallow", "/")])] "*" then
      (if ((alGet? [("*", [("disallow", "/")])] "*").getD []).any rootDisallow
        then "blocked" else "allowed")
    else "allowed") = "blocked"
  by_cases h : ("*" : String) = pyLower c
  · have hc : alContains [("*", [("disallow", "/")])] (pyLower c) = true := by
      rw [alContains_cons]; simp [h]
    rw [if_pos hc, alGet?_cons, if_pos h]
    decide
  · have hc : alContains [("*", [("disallow", "/")])] (pyLower c) = false := by
      rw [alContains_cons]; simp [h, alContains]
    rw [if_neg (by simp [hc]), if_pos (by rw [alContains_cons]; simp)]
    decide

/-- When every crawler resolves to blocked, the loop counts one per
requested crawler (duplicates included). -/
theorem statusFold_count_all_blocked (rules : RulesMap) (cs : List String)
    (acc : List (String × String) × Nat)
    (h : ∀ c, resolve_crawler rules c = "blocked") :
    (cs.foldl (robotsStatusStep rules) acc).2 = acc.2 + cs.length := by
  induction cs generalizing acc with
  | nil => simp
  | cons d ds ih =>
    rw [List.foldl_cons, ih]
    show (robotsStatusStep rules acc d).2 + ds.length = acc.2 + (d :: ds).length
    unfold robotsStatusStep
    simp only [h d]
    simp
    omega

/-- Claim C5.  Resolution is case-insensitive and follows the spec's rule
(own rule list first with the exact-root test, else wildcard, else
allowed); and for a robots document "User-agent: *" / "Disallow: /" every
requested crawler is blocked, allows_all is false (whenever any crawler
was requested at all), and blocked_count equals the number of requested
crawlers. -/
theorem c5_resolution_rule_and_scenarioC :
    (∀ (content : String) (cs : List String) (c : String), c ∈ cs →
      crawler_status (parse_robots content cs) c =
        some (spec_resolve (robots_rules content) (pyLower c))) ∧
    (∀ (cs : List String) (c : String), c ∈ cs →
      crawler_status (parse_robots "User-agent: *\nDisallow: /" cs) c = some "blocked") ∧
    (∀ cs : List String, cs ≠ [] →
      (parse_robots "User-agent: *\nDisallow: /" cs).allows_all = false) ∧
    (∀ cs : List String,
      (parse_robots "User-agent: *\nDisallow: /" cs).blocked_count = some cs.length) := by
  have hblocked : ∀ c, resolve_crawler (robots_rules "User-agent: *\nDisallow: /") c = "blocked" := by
    intro c
    rw [scenarioC_rules]
    exact scenarioC_resolve_blocked c
  refine ⟨fun content cs c hc => ?_, fun cs c hc => ?_, fun cs hcs => ?_, fun cs => ?_⟩
  · rw [parse_robots_status content cs c hc, resolve_eq_spec]
  · rw [parse_robots_status _ cs c hc, hblocked]
  · show ((cs.foldl (robotsStatusStep (robots_rules "User-agent: *\nDisallow: /")) ([], 0)).2 == 0)
      = false
    rw [statusFold_count_all_blocked _ _ _ hblocked]
    have : cs.length ≠ 0 := fun h => hcs (List.length_eq_zero.mp h)
    simpa using this
  · show some ((cs.foldl (robotsStatusStep (robots_rules "User-agent: *\nDisallow: /")) ([], 0)).2)
      = some cs.length
    rw [statusFold_count_all_blocked _ _ _ hblocked]
    simp

/-- Witness for C5's theorem at the system's crawler catalogue. -/
theorem c5_resolution_rule_and_scenarioC_witness :
    crawler_status (parse_robots "User-agent: *\nDisallow: /" AI_CRAWLERS) "GPTBot"
      = some "blocked" ∧
    (parse_robots "User-agent: *\nDisallow: /" AI_CRAWLERS).allows_all = false ∧
    (parse_robots "User-agent: *\nDisallow: /" AI_CRAWLERS).blocked_count
      = some AI_CRAWLERS.length ∧
    crawler_status (parse_robots "User-agent: *\nDisallow: /" AI_CRAWLERS) "ClaudeBot" =
      some (spec_resolve (robots_rules "User-agent: *\nDisallow: /") (pyLower "ClaudeBot")) :=
  ⟨c5_resolution_rule_and_scenarioC.2.1 AI_CRAWLERS "GPTBot" (by decide),
   c5_resolution_rule_and_scenarioC.2.2.1 AI_CRAWLERS (by decide),
   c5_resolution_rule_and_scenarioC.2.2.2 AI_CRAWLERS,
   c5_resolution_rule_and_scenarioC.1 "User-agent: *\nDisallow: /" AI_CRAWLERS "ClaudeBot"
     (by decide)⟩

/-- Claim C10.  A crawler that owns an (empty) rule list resolves to
allowed without the wildcard rules ever being consulted, even when the
wildcard agent disallows the whole site; concretely, for the document
"User-agent: GPTBot" / "User-agent: *" / "Disallow: /", GPTBot owns the
empty list and is allowed while CCBot is blocked by the wildcard. -/
theorem c10_own_empty_rule_list_wins (content : String) (cs : List String) (c : String)
    (hmem : c ∈ cs) (hown : alGet? (robots_rules content) (pyLower c) = some []) :
    crawler_status (parse_robots content cs) c = some "allowed" ∧
    crawler_status (parse_robots c10RobotsDoc ["GPTBot", "CCBot"]) "GPTBot" = some "allowed" ∧
    crawler_status (parse_robots c10RobotsDoc ["GPTBot", "CCBot"]) "CCBot" = some "blocked" ∧
    alGet? (robots_rules c10RobotsDoc) "gptbot" = some [] ∧
    alGet? (robots_rules c10RobotsDoc) "*" = some [("disallow", "/")] := by
  refine ⟨?_, by decide, by decide, by decide, by decide⟩
  rw [parse_robots_status content cs c hmem]
  have hres : resolve_crawler (robots_rules content) c = "allowed" := by
    show (if alContains (robots_rules content) (pyLower c) then
        (if ((alGet? (robots_rules content) (pyLower c)).getD []).any rootDisallow
          then "blocked" else "allowed")
      else if alContains (robots_rules content) "*" then
        (if ((alGet? (robots_rules content) "*").getD []).any rootDisallow
          then "blocked" else "allowed")
      else "allowed") = "allowed"
    have hc : alContains (robots_rules content) (pyLower c) = true :=
      (alContains_iff_exists _ _).mpr ⟨[], hown⟩
    rw [if_pos hc, hown]
    rfl
  rw [hres]

/-- Witness for C10's theorem at its concrete robots document. -/
theorem c10_own_empty_rule_list_wins_witness :
    crawler_status (parse_robots c10RobotsDoc ["GPTBot", "CCBot"]) "GPTBot" = some "allowed" :=
  (c10_own_empty_rule_list_wins c10RobotsDoc ["GPTBot", "CCBot"] "GPTBot"
    (by decide) (by decide)).1

/-- The severity rank is always in 0..5. -/
theorem priority_order_le_five (p : String) : priority_order p ≤ 5 := by
  unfold priority_order
  (repeat' split) <;> decide

/-- Members of a rank bucket have that rank. -/
theorem mem_rank_filter {l : List Recommendation} {i : Nat} {x : Recommendation}
    (hx : x ∈ l.filter (fun y => priority_order y.priority == i)) :
    priority_order x.priority = i := by
  have h := (List.mem_filter.mp hx).2
  simpa using h

/-- A rank bucket is sorted (all ranks equal). -/
theorem pairwise_rank_bucket (l : List Recommendation) (i : Nat) :
    List.Pairwise (fun a b => priority_order a.priority ≤ priority_order b.priority)
      (l.filter (fun y => priority_order y.priority == i)) := by
  refine List.pairwise_iff_forall_sublist.mpr ?_
  intro a b hsub
  have ha : a ∈ l.filter (fun y => priority_order y.priority == i) := hsub.subset (by simp)
  have hb : b ∈ l.filter (fun y => priority_order y.priority == i) := hsub.subset (by simp)
  rw [mem_rank_filter ha, mem_rank_filter hb]

/-- Prepending a constant-rank block below an already-sorted tail keeps the
list sorted. -/
theorem pairwise_rank_append (xs ys : List Recommendation) (i : Nat)
    (hx : ∀ x ∈ xs, priority_order x.priority = i)
    (hysP : List.Pairwise (fun a b => priority_order a.priority ≤ priority_order b.priority) ys)
    (hy : ∀ y ∈ ys, i ≤ priority_order y.priority) :
    List.Pairwise (fun a b => priority_order a.priority ≤ priority_order b.priority)
      (xs ++ ys) := by
  refine List.pairwise_append.mpr ⟨?_, hysP, ?_⟩
  · refine List.pairwise_iff_forall_sublist.mpr ?_
    intro a b hsub
    have ha : a ∈ xs := hsub.subset (by simp)
    have hb : b ∈ xs := hsub.subset (by simp)
    rw [hx a ha, hx b hb]
  · intro a ha b hb
    rw [hx a ha]
    exact hy b hb

/-- The stable sort produces a list sorted by non-decreasing rank. -/
theorem pyStableSortByPriority_sorted (l : List Recommendation) :
    List.Sorted (fun a b => priority_order a.priority ≤ priority_order b.priority)
      (pyStableSortByPriority l) := by
  unfold pyStableSortByPriority
  simp only [List.append_assoc]
  have h5 := pairwise_rank_bucket l 5
  have h45 := pairwise_rank_append
    (l.filter (fun y => priority_order y.priority == 4))
    (l.filter (fun y => priority_order y.priority == 5)) 4
    (fun x hx => mem_rank_filter hx) h5
    (fun y hy => by have := mem_rank_filter hy; omega)
  have h345 := pairwise_rank_append
    (l.filter (fun y => priority_order y.priority == 3))
    (l.filter (fun y => priority_order y.priority == 4)
      ++ l.filter (fun y => priority_order y.priority == 5)) 3
    (fun x hx => mem_rank_filter hx) h45
    (fun y hy => by
      rcases List.mem_append.mp hy with h | h <;> · have := mem_rank_filter h; omega)
  have h2345 := pairwise_rank_append
    (l.filter (fun y => priority_order y.priority == 2))
    (l.filter (fun y => priority_order y.priority == 3)
      ++ (l.filter (fun y => priority_order y.priority == 4)
      ++ l.filter (fun y => priority_order y.priority == 5))) 2
    (fun x hx => mem_rank_filter hx) h345
    (fun y hy => by
      rcases List.mem_append.mp hy with h | h
      · have := mem_rank_filter h; omega
      · rcases List.mem_append.mp h with h | h <;> · have := mem_rank_filter h; omega)
  have h12345 := pairwise_rank_append
    (l.filter (fun y => priority_order y.priority == 1))
    (l.filter (fun y => priority_order y.priority == 2)
      ++ (l.filter (fun y => priority_order y.priority == 3)
      ++ (l.filter (fun y => priority_order y.priority == 4)
      ++ l.filter (fun y => priority_order y.priority == 5)))) 1
    (fun x hx => mem_rank_filter hx) h2345
    (fun y hy => by
      rcases List.mem_append.mp hy with h | h
      · have := mem_rank_filter h; omega
      · rcases List.mem_append.mp h with h | h
        · have := mem_rank_filter h; omega
        · rcases List.mem_append.mp h with h | h <;> · have := mem_rank_filter h; omega)
  exact pairwise_rank_append
    (l.filter (fun y => priority_order y.priority == 0))
    (l.filter (fun y => priority_order y.priority == 1)
      ++ (l.filter (fun y => priority_order y.priority == 2)
      ++ (l.filter (fun y => priority_order y.priority == 3)
      ++ (l.filter (fun y => priority_order y.priority == 4)
      ++ l.filter (fun y => priority_order y.priority == 5))))) 0
    (fun x hx => mem_rank_filter hx) h12345
    (fun y hy => Nat.zero_le _)

/-- Filtering one rank bucket by a rank keeps it iff the ranks agree. -/
theorem filter_rank_filter (l : List Recommendation) (i r : Nat) :
    (l.filter (fun y => priority_order y.priority == i)).filter
      (fun y => priority_order y.priority == r) =
      if i = r then l.filter (fun y => priority_order y.priority == i) else [] := by
  by_cases h : i = r
  · subst h
    rw [List.filter_filter, if_pos rfl]
    exact List.filter_congr (fun x _ => Bool.and_self _)
  · rw [List.filter_filter, if_neg h]
    refine List.filter_eq_nil_iff.mpr ?_
    intro a ha
    simp only [Bool.and_eq_true, beq_iff_eq]
    rintro ⟨h1, h2⟩
    omega

/-- No recommendation has a rank above 5. -/
theorem rank_filter_ge_six (l : List Recommendation) (r : Nat) (hr : 5 < r) :
    l.filter (fun y => priority_order y.priority == r) = [] := by
  refine List.filter_eq_nil_iff.mpr ?_
  intro a ha
  simp only [beq_iff_eq]
  have := priority_order_le_five a.priority
  omega

/-- The stable sort preserves each rank's sublist: equal-rank elements keep
their generation order. -/
theorem pyStableSortByPriority_filter (l : List Recommendation) (r : Nat) :
    (pyStableSortByPriority l).filter (fun y => priority_order y.priority == r) =
      l.filter (fun y => priority_order y.priority == r) := by
  unfold pyStableSortByPriority
  simp only [List.filter_append]
  rw [filter_rank_filter l 0 r, filter_rank_filter l 1 r, filter_rank_filter l 2 r,
    filter_rank_filter l 3 r, filter_rank_filter l 4 r, filter_rank_filter l 5 r]
  rcases r with _ | _ | _ | _ | _ | _ | n
  · simp
  · simp
  · simp
  · simp
  · simp
  · simp
  · rw [rank_filter_ge_six l (n + 6) (by omega)]
    simp

/-- Claim C6.  For every input, the recommendation list is sorted by
non-decreasing severity rank (critical=0 … info=4), and the sort is
stable: for each rank, the sorted list's entries of that rank are exactly
the generated ones in generation order. -/
theorem c6_recommendations_sorted_and_stable (cd : ContentData) (sd : StructureData)
    (rd : RobotsResult) (sc : SchemaData) (scores : ScoreResult) (iab : Bool) :
    List.Sorted (fun a b => priority_order a.priority ≤ priority_order b.priority)
      (generate_recommendations cd sd rd sc scores iab) ∧
    ∀ r : Nat,
      (generate_recommendations cd sd rd sc scores iab).filter
        (fun y => priority_order y.priority == r) =
      (generate_recommendations_unsorted cd sd rd sc scores iab).filter
        (fun y => priority_order y.priority == r) :=
  ⟨pyStableSortByPriority_sorted _, fun r => pyStableSortByPriority_filter _ r⟩

/-- Witness for C3's theorem at scenario B's concrete inputs. -/
theorem c3_breakdown_matches_spec_step_functions_witness :
    ((calculate_score (extract_content scenarioBDoc) (analyze_structure scenarioBDoc)
        robotsB schemaB).breakdown.content.score,
      (calculate_score (extract_content scenarioBDoc) (analyze_structure scenarioBDoc)
        robotsB schemaB).breakdown.content.status) =
      spec_content_rule (extract_content scenarioBDoc).word_count :=
  (c3_breakdown_matches_spec_step_functions (extract_content scenarioBDoc)
    (analyze_structure scenarioBDoc) robotsB schemaB).1

/-- Witness for C4's theorem at scenario B's concrete inputs. -/
theorem c4_total_is_bounded_sum_witness :
    (calculate_score (extract_content scenarioBDoc) (analyze_structure scenarioBDoc)
      robotsB schemaB).total ≤ 100 :=
  (c4_total_is_bounded_sum (extract_content scenarioBDoc) (analyze_structure scenarioBDoc)
    robotsB schemaB).2.2.2.2.2.2.2.2.2.2.2.2

/-- Witness for C6's theorem at scenario B's concrete inputs. -/
theorem c6_recommendations_sorted_and_stable_witness :
    List.Sorted (fun a b => priority_order a.priority ≤ priority_order b.priority)
      (generate_recommendations (extract_content scenarioBDoc) (analyze_structure scenarioBDoc)
        robotsB schemaB scoresB false) :=
  (c6_recommendations_sorted_and_stable (extract_content scenarioBDoc)
    (analyze_structure scenarioBDoc) robotsB schemaB scoresB false).1

/-- Witness for C8's theorem: the scenario B no_spa score. -/
theorem c8_spa_shell_and_scenarioB_witness :
    scoresB.breakdown.no_spa.score = 0 :=
  c8_spa_shell_and_scenarioB.2.1

/-- Witness for C9's theorem: the concrete document with both flags true. -/
theorem c9_content_result_invariants_witness :
    (extract_content c9Doc).is_spa_empty = true ∧
    (extract_content c9Doc).has_content = true :=
  ⟨c9_content_result_invariants.2.2.1, c9_content_result_invariants.2.2.2⟩
